import Mathlib

/-!
Shallow embedding of `src/StartDeck.py` (python-elgato-streamdeck example
script).  The script loads a JSON page/key configuration, resolves a
(page, key, pressed-state) triple to an icon/label style, renders key
images, and dispatches button events (shell actions, page navigation,
exit).  Python dictionaries become structures with `Option` fields for
the optional slots, Python exceptions (`KeyError` from `d[k]` on a
missing key, `IndexError` from `[..][0]` on an empty list) become
`Except PyErr`, and the observable device / subprocess effects become an
explicit event trace.
-/

/-- Python exceptions that the script can raise. -/
inductive PyErr where
  | keyError
  | indexError
  deriving DecidableEq, Repr

/-- First character of a string, if any. -/
def strHead (s : String) : Option Char :=
  s.data.head?

/-- Last character of a string, if any. -/
def strLast (s : String) : Option Char :=
  s.data.getLast?

/-- `os.path.join(a, b)` for two POSIX components, as used by the script:
an absolute second component replaces the first, otherwise the two are
joined with a single separator. -/
def pathJoin (a b : String) : String :=
  if strHead b = some '/' then b
  else if a = "" then b
  else if strLast a = some '/' then a ++ b
  else a ++ "/" ++ b

/-- Python `a or b` on strings: `a` when non-empty (truthy), else `b`. -/
def pyOr (a b : String) : String :=
  if a = "" then b else a

/-- A key entry of the JSON configuration (`config.json` schema):
`button` is required, every other slot is optional.  `active_icon` /
`active_label` are the mutable slots rewritten by `update_key_image`. -/
structure KeyConfig where
  button : Int
  primary_icon : Option String := none
  primary_label : Option String := none
  secondary_icon : Option String := none
  secondary_label : Option String := none
  toggle : Option Bool := none
  action : Option String := none
  display_page : Option Int := none
  active_icon : Option String := none
  active_label : Option String := none
  deriving DecidableEq, Repr

/-- A page of the JSON configuration. -/
structure Page where
  page_number : Int
  home_page : Option Bool := none
  keys : List KeyConfig := []
  deriving DecidableEq, Repr

/-- The device handle; the script only queries `deck.key_count()`. -/
structure Deck where
  key_count : Int
  deriving DecidableEq, Repr

/-- The script's mutable module state: the parsed `PAGES` list and the
`CURRENT_PAGE` global. -/
structure AppState where
  pages : List Page
  current_page : Int
  deriving DecidableEq, Repr

/-- Result of `get_key_style`: the dict
`{"name": .., "icon": .., "font": .., "label": ..}`. -/
structure KeyStyle where
  name : String
  icon : String
  font : String
  label : String
  deriving DecidableEq, Repr

/-- Result of `get_current_key_style`: the dict
`{"button": .., "icon": .., "label": ..}`. -/
structure CurrentKeyStyle where
  button : Int
  icon : String
  label : String
  deriving DecidableEq, Repr

/-- Observable effects of the script: device writes (`deck.set_key_image`
with the rendered icon/font/label, `deck.reset`, `deck.close`) and
subprocess spawns (`subprocess.run(action, shell=True)`). -/
inductive Event where
  | set_key_image (key : Int) (icon : String) (font : String) (label : String)
  | deck_reset
  | deck_close
  | run_action (cmd : String)
  deriving DecidableEq, Repr

/-- Python `key_config.get(item, ...)` for the string-valued slots of a
key dict (the script only ever looks up these six slot names). -/
def cfgGet (kc : KeyConfig) (item : String) : Option String :=
  if item = "primary_icon" then kc.primary_icon
  else if item = "primary_label" then kc.primary_label
  else if item = "secondary_icon" then kc.secondary_icon
  else if item = "secondary_label" then kc.secondary_label
  else if item = "active_icon" then kc.active_icon
  else if item = "active_label" then kc.active_label
  else none

/-- Python `key_config[item] = value` for the string-valued slots (the
script only ever assigns `active_icon` and `active_label`). -/
def cfgSet (kc : KeyConfig) (item : String) (value : String) : KeyConfig :=
  if item = "primary_icon" then { kc with primary_icon := some value }
  else if item = "primary_label" then { kc with primary_label := some value }
  else if item = "secondary_icon" then { kc with secondary_icon := some value }
  else if item = "secondary_label" then { kc with secondary_label := some value }
  else if item = "active_icon" then { kc with active_icon := some value }
  else if item = "active_label" then { kc with active_label := some value }
  else kc

/-- `get_key_config(deck, page_number, key)` (StartDeck.py 134-143):
`[p for p in PAGES if p["page_number"] == page_number][0]` raises
`IndexError` when no page matches; the key filter returns the first
matching key config, or `None` when the list is empty. -/
def get_key_config (pages : List Page) (page_number key : Int) :
    Except PyErr (Option KeyConfig) :=
  match pages.find? (fun p => p.page_number == page_number) with
  | none => .error .indexError
  | some page => .ok (page.keys.find? (fun k => k.button == key))

/-- In-place mutation of the first key config with the given button on
the first page with the given number (Python mutates the dict object
returned by `get_key_config`). -/
def updateFirstKey (ks : List KeyConfig) (b : Int) (f : KeyConfig → KeyConfig) :
    List KeyConfig :=
  match ks with
  | [] => []
  | k :: rest => if k.button == b then f k :: rest else k :: updateFirstKey rest b f

/-- In-place mutation of the first page with the given number. -/
def updateFirstPage (ps : List Page) (n : Int) (f : Page → Page) : List Page :=
  match ps with
  | [] => []
  | p :: rest => if p.page_number == n then f p :: rest else p :: updateFirstPage rest n f

/-- `set_key_config_value(deck, page_number, key, config_item, value)`
(StartDeck.py 146-151): looks up the key config (propagating the page
`IndexError`), assigns the slot when the key exists, no-ops otherwise. -/
def set_key_config_value (pages : List Page) (page_number key : Int)
    (config_item value : String) : Except PyErr (List Page) :=
  match pages.find? (fun p => p.page_number == page_number) with
  | none => .error .indexError
  | some _ =>
      .ok (updateFirstPage pages page_number (fun pg =>
        { pg with keys := updateFirstKey pg.keys key (fun kc => cfgSet kc config_item value) }))

/-- The `icon_type` / `label_type` selection of `get_key_style`
(StartDeck.py 79-112).  On a toggle key press the script reads
`primary_icon`, `secondary_icon`, `active_icon` and `active_label` with
`[]` (raising `KeyError` when absent) and flips the slot to secondary
when the active icon equals the primary icon, either as the bare
filename or joined under `ASSETS_PATH`. -/
def resolveTypes (assetsPath : String) (key_config : KeyConfig) (state : Bool) :
    Except PyErr (String × String) :=
  if key_config.toggle.getD false then
    if state then
      match key_config.primary_icon, key_config.secondary_icon,
            key_config.active_icon, key_config.active_label with
      | some primary_icon, some _, some active_icon, some _ =>
          if active_icon = primary_icon ∨ active_icon = pathJoin assetsPath primary_icon then
            .ok ("secondary_icon", "secondary_label")
          else
            .ok ("primary_icon", "primary_label")
      | _, _, _, _ => .error .keyError
    else .ok ("active_icon", "active_label")
  else
    if state then .ok ("active_icon", "active_label")
    else .ok ("primary_icon", "primary_label")

/-- Body of `get_key_style` after the config lookup (StartDeck.py
66-131): resolve the slot types, fall back to the primary slots when the
resolved slot is empty, and join a non-empty icon under `ASSETS_PATH`. -/
def styleOfConfig (deck : Deck) (assetsPath : String) (key : Int)
    (key_config : KeyConfig) (state : Bool) : Except PyErr KeyStyle :=
  let _exit_key_index := deck.key_count - 1
  let font_location := pathJoin assetsPath "Roboto-Regular.ttf"
  let name := "Button" ++ toString key
  match resolveTypes assetsPath key_config state with
  | .error e => .error e
  | .ok (icon_type, label_type) =>
      let icon := pyOr ((cfgGet key_config icon_type).getD "") (key_config.primary_icon.getD "")
      let label := pyOr ((cfgGet key_config label_type).getD "") (key_config.primary_label.getD "")
      let icon_location := if icon = "" then "" else pathJoin assetsPath icon
      .ok { name := name, icon := icon_location, font := font_location, label := label }

/-- `get_key_style(deck, page_number, key, state)` (StartDeck.py 65-131):
empty dict (`none`) when the key has no config entry. -/
def get_key_style (deck : Deck) (assetsPath : String) (pages : List Page)
    (page_number key : Int) (state : Bool) : Except PyErr (Option KeyStyle) :=
  match get_key_config pages page_number key with
  | .error e => .error e
  | .ok none => .ok none
  | .ok (some kc) =>
      match styleOfConfig deck assetsPath key kc state with
      | .error e => .error e
      | .ok s => .ok (some s)

/-- `get_current_key_style(deck, page_number, key, state)` (StartDeck.py
52-62): reads `button`, `active_icon`, `active_label` with `[]`. -/
def get_current_key_style (pages : List Page) (page_number key : Int) :
    Except PyErr (Option CurrentKeyStyle) :=
  match get_key_config pages page_number key with
  | .error e => .error e
  | .ok none => .ok none
  | .ok (some kc) =>
      match kc.active_icon, kc.active_label with
      | some ai, some al => .ok (some { button := kc.button, icon := ai, label := al })
      | _, _ => .error .keyError

/-- `update_key_image(deck, page_number, key, state)` (StartDeck.py
156-176): resolve the style; when it is non-empty and has a non-empty
icon, render and push the image (one `set_key_image` event) and store
the resolved icon/label into the config's `active_icon`/`active_label`;
otherwise do nothing. -/
def update_key_image (deck : Deck) (assetsPath : String) (st : AppState)
    (page_number key : Int) (state : Bool) : Except PyErr (AppState × List Event) :=
  match get_key_style deck assetsPath st.pages page_number key state with
  | .error e => .error e
  | .ok none => .ok (st, [])
  | .ok (some key_style) =>
      if key_style.icon = "" then .ok (st, [])
      else
        match set_key_config_value st.pages page_number key "active_icon" key_style.icon with
        | .error e => .error e
        | .ok pages1 =>
            match set_key_config_value pages1 page_number key "active_label" key_style.label with
            | .error e => .error e
            | .ok pages2 =>
                .ok ({ st with pages := pages2 },
                     [Event.set_key_image key key_style.icon key_style.font key_style.label])

/-- The per-key loop of `load_page` (StartDeck.py 206-207), iterating
the page's key list in order and threading the mutated state. -/
def load_page_keys (deck : Deck) (assetsPath : String) (page_number : Int) :
    AppState → List Event → List KeyConfig → Except PyErr (AppState × List Event)
  | s, acc, [] => .ok (s, acc)
  | s, acc, k :: ks =>
      match update_key_image deck assetsPath s page_number k.button false with
      | .error e => .error e
      | .ok (s1, evs1) => load_page_keys deck assetsPath page_number s1 (acc ++ evs1) ks

/-- `load_page(deck, page_number)` (StartDeck.py 199-210):
`[p for p in PAGES if ..][0]` raises `IndexError` for an unknown page;
otherwise reset the deck, repaint every configured key of the page in
the released state, and set `CURRENT_PAGE`. -/
def load_page (deck : Deck) (assetsPath : String) (st : AppState)
    (page_number : Int) : Except PyErr (AppState × List Event) :=
  match st.pages.find? (fun p => p.page_number == page_number) with
  | none => .error .indexError
  | some page_layout =>
      match load_page_keys deck assetsPath page_layout.page_number st [Event.deck_reset]
          page_layout.keys with
      | .error e => .error e
      | .ok (st1, evs) => .ok ({ st1 with current_page := page_layout.page_number }, evs)

/-- `perform_key_actions(deck, page_number, key, state)` (StartDeck.py
179-196): on a press, first handle a truthy `display_page` (load the
page, then set `CURRENT_PAGE`), then spawn a truthy `action` with the
shell. -/
def perform_key_actions (deck : Deck) (assetsPath : String) (st : AppState)
    (page_number key : Int) (state : Bool) : Except PyErr (AppState × List Event) :=
  if state then
    match get_key_config st.pages page_number key with
    | .error e => .error e
    | .ok none => .ok (st, [])
    | .ok (some key_config) =>
        let navigated : Except PyErr (AppState × List Event) :=
          match key_config.display_page with
          | some dp =>
              if dp ≠ 0 then
                match load_page deck assetsPath st dp with
                | .error e => .error e
                | .ok (st1, evs1) => .ok ({ st1 with current_page := dp }, evs1)
              else .ok (st, [])
          | none => .ok (st, [])
        match navigated with
        | .error e => .error e
        | .ok (st1, evs1) =>
            match key_config.action with
            | some a => if a ≠ "" then .ok (st1, evs1 ++ [Event.run_action a]) else .ok (st1, evs1)
            | none => .ok (st1, evs1)
  else .ok (st, [])

/-- `key_change_callback(deck, key, state)` (StartDeck.py 215-240): on a
press, update the key image on the current page, perform the key's
actions, and when the config entry looked up on the (possibly updated)
current page reports `button == 14`, reset and close the deck.  On a
release, do nothing. -/
def key_change_callback (deck : Deck) (assetsPath : String) (st : AppState)
    (key : Int) (state : Bool) : Except PyErr (AppState × List Event) :=
  if state then
    match update_key_image deck assetsPath st st.current_page key state with
    | .error e => .error e
    | .ok (st1, evs1) =>
        match perform_key_actions deck assetsPath st1 st1.current_page key state with
        | .error e => .error e
        | .ok (st2, evs2) =>
            match get_current_key_style st2.pages st2.current_page key with
            | .error e => .error e
            | .ok oks =>
                let exit_events :=
                  match oks with
                  | some ks => if ks.button = 14 then [Event.deck_reset, Event.deck_close] else []
                  | none => []
                .ok (st2, evs1 ++ evs2 ++ exit_events)
  else .ok (st, [])

instance {ε α : Type} [DecidableEq ε] [DecidableEq α] : DecidableEq (Except ε α) :=
  fun a b =>
    match a, b with
    | .ok x, .ok y =>
        if h : x = y then isTrue (by rw [h]) else isFalse (by intro hc; cases hc; exact h rfl)
    | .error x, .error y =>
        if h : x = y then isTrue (by rw [h]) else isFalse (by intro hc; cases hc; exact h rfl)
    | .ok _, .error _ => isFalse (by intro hc; cases hc)
    | .error _, .ok _ => isFalse (by intro hc; cases hc)

theorem pyOr_of_left_ne (a b : String) (h : a ≠ "") : pyOr a b = a := by
  simp [pyOr, h]

theorem pyOr_of_left_empty (b : String) : pyOr "" b = b := by
  simp [pyOr]

theorem pyOr_ne_empty_of_right (a b : String) (h : b ≠ "") : pyOr a b ≠ "" := by
  by_cases ha : a = "" <;> simp [pyOr, ha, h]

theorem cfgGet_primary_icon (kc : KeyConfig) : cfgGet kc "primary_icon" = kc.primary_icon := rfl

theorem cfgGet_primary_label (kc : KeyConfig) : cfgGet kc "primary_label" = kc.primary_label := rfl

theorem cfgGet_secondary_icon (kc : KeyConfig) :
    cfgGet kc "secondary_icon" = kc.secondary_icon := rfl

theorem cfgGet_secondary_label (kc : KeyConfig) :
    cfgGet kc "secondary_label" = kc.secondary_label := rfl

theorem cfgGet_active_icon (kc : KeyConfig) : cfgGet kc "active_icon" = kc.active_icon := rfl

theorem cfgGet_active_label (kc : KeyConfig) : cfgGet kc "active_label" = kc.active_label := rfl

/-- Claim C9: on a key-release event (state `false`) the dispatcher does
nothing: no device write, no config mutation, no shell command, and the
current page is unchanged. -/
theorem C9_release_is_ignored (deck : Deck) (assetsPath : String) (st : AppState) (key : Int) :
    key_change_callback deck assetsPath st key false = .ok (st, []) := by
  simp [key_change_callback]

/-- Claim C6: loading a page number with no matching page in the
configuration raises the page-lookup error instead of silently rendering
nothing and returning. -/
theorem C6_load_page_missing_page_raises (deck : Deck) (assetsPath : String) (st : AppState)
    (page_number : Int) (h : ∀ p ∈ st.pages, p.page_number ≠ page_number) :
    load_page deck assetsPath st page_number = .error PyErr.indexError := by
  have hf : st.pages.find? (fun p => p.page_number == page_number) = none := by
    apply List.find?_eq_none.mpr
    intro p hp
    simpa using h p hp
  simp [load_page, hf]

theorem C6_witness :
    load_page ⟨15⟩ "/assets" { pages := [{ page_number := 1 }], current_page := 1 } 2 =
      .error PyErr.indexError :=
  C6_load_page_missing_page_raises ⟨15⟩ "/assets"
    { pages := [{ page_number := 1 }], current_page := 1 } 2 (by decide)

/-- Claim C7: a key index with no entry in the current page's key list
yields an empty config lookup and an empty style, and the key-image
update silently performs no device write and leaves the state
unchanged. -/
theorem C7_missing_key_is_skipped (deck : Deck) (assetsPath : String) (st : AppState)
    (page_number key : Int) (state : Bool) (pg : Page)
    (hpg : st.pages.find? (fun p => p.page_number == page_number) = some pg)
    (hk : ∀ k ∈ pg.keys, k.button ≠ key) :
    get_key_config st.pages page_number key = .ok none ∧
    get_key_style deck assetsPath st.pages page_number key state = .ok none ∧
    update_key_image deck assetsPath st page_number key state = .ok (st, []) := by
  have hfk : pg.keys.find? (fun k => k.button == key) = none := by
    apply List.find?_eq_none.mpr
    intro k hk2
    simpa using hk k hk2
  have h1 : get_key_config st.pages page_number key = .ok none := by
    simp [get_key_config, hpg, hfk]
  exact ⟨h1, by simp [get_key_style, h1], by simp [update_key_image, get_key_style, h1]⟩

theorem C7_witness :
    get_key_config [{ page_number := 1, keys := [{ button := 0 }] }] 1 3 = .ok none ∧
    get_key_style ⟨15⟩ "/assets" [{ page_number := 1, keys := [{ button := 0 }] }] 1 3 true =
      .ok none ∧
    update_key_image ⟨15⟩ "/assets"
      { pages := [{ page_number := 1, keys := [{ button := 0 }] }], current_page := 1 } 1 3 true =
      .ok ({ pages := [{ page_number := 1, keys := [{ button := 0 }] }], current_page := 1 }, []) :=
  C7_missing_key_is_skipped ⟨15⟩ "/assets"
    { pages := [{ page_number := 1, keys := [{ button := 0 }] }], current_page := 1 }
    1 3 true { page_number := 1, keys := [{ button := 0 }] } (by decide) (by decide)

/-- Claim C2: for a key configuration without a toggle flag (and with
non-empty active and primary slots so the resolved slots are the ones
named by the claim), pressed-state resolution returns the active
icon/label and released-state resolution returns the primary
icon/label, the icon joined under the asset root. -/
theorem C2_non_toggle_resolution (deck : Deck) (assetsPath : String) (pages : List Page)
    (page_number key : Int) (kc : KeyConfig)
    (hfind : get_key_config pages page_number key = .ok (some kc))
    (htog : kc.toggle.getD false = false)
    (hai : kc.active_icon.getD "" ≠ "")
    (hal : kc.active_label.getD "" ≠ "")
    (hpi : kc.primary_icon.getD "" ≠ "") :
    get_key_style deck assetsPath pages page_number key true =
      .ok (some { name := "Button" ++ toString key,
                  icon := pathJoin assetsPath (kc.active_icon.getD ""),
                  font := pathJoin assetsPath "Roboto-Regular.ttf",
                  label := kc.active_label.getD "" }) ∧
    get_key_style deck assetsPath pages page_number key false =
      .ok (some { name := "Button" ++ toString key,
                  icon := pathJoin assetsPath (kc.primary_icon.getD ""),
                  font := pathJoin assetsPath "Roboto-Regular.ttf",
                  label := kc.primary_label.getD "" }) := by
  have hrt : resolveTypes assetsPath kc true = .ok ("active_icon", "active_label") := by
    simp [resolveTypes, htog]
  have hrf : resolveTypes assetsPath kc false = .ok ("primary_icon", "primary_label") := by
    simp [resolveTypes, htog]
  constructor
  · simp [get_key_style, hfind, styleOfConfig, hrt, cfgGet_active_icon, cfgGet_active_label,
      pyOr_of_left_ne _ _ hai, pyOr_of_left_ne _ _ hal, hai]
  · simp [get_key_style, hfind, styleOfConfig, hrf, cfgGet_primary_icon, cfgGet_primary_label,
      pyOr_of_left_ne _ _ hpi, hpi, pyOr]

def kcC2 : KeyConfig :=
  { button := 2
    primary_icon := some "p.png"
    primary_label := some "P"
    active_icon := some "a.png"
    active_label := some "A" }

def pagesC2 : List Page := [{ page_number := 1, keys := [kcC2] }]

theorem C2_witness :
    get_key_style ⟨15⟩ "/assets" pagesC2 1 2 true =
      .ok (some { name := "Button2", icon := pathJoin "/assets" "a.png",
                  font := pathJoin "/assets" "Roboto-Regular.ttf", label := "A" }) ∧
    get_key_style ⟨15⟩ "/assets" pagesC2 1 2 false =
      .ok (some { name := "Button2", icon := pathJoin "/assets" "p.png",
                  font := pathJoin "/assets" "Roboto-Regular.ttf", label := "P" }) :=
  C2_non_toggle_resolution ⟨15⟩ "/assets" pagesC2 1 2 kcC2
    (by decide) (by decide) (by decide) (by decide) (by decide)

/-- Claim C3: whenever the style resolver succeeds on a key config, an
empty resolved label slot falls back to the primary label, and the
returned label is never empty when a non-empty primary label exists. -/
theorem C3_label_fallback (deck : Deck) (assetsPath : String) (pages : List Page)
    (page_number key : Int) (kc : KeyConfig) (state : Bool)
    (icon_type label_type : String) (s : KeyStyle)
    (hfind : get_key_config pages page_number key = .ok (some kc))
    (htypes : resolveTypes assetsPath kc state = .ok (icon_type, label_type))
    (hs : get_key_style deck assetsPath pages page_number key state = .ok (some s)) :
    ((cfgGet kc label_type).getD "" = "" → s.label = kc.primary_label.getD "") ∧
    (kc.primary_label.getD "" ≠ "" → s.label ≠ "") := by
  have hstyle : styleOfConfig deck assetsPath key kc state = .ok s := by
    simp only [get_key_style, hfind] at hs
    cases h2 : styleOfConfig deck assetsPath key kc state with
    | error e =>
        rw [h2] at hs
        simp at hs
    | ok s2 =>
        rw [h2] at hs
        simp only [Except.ok.injEq, Option.some.injEq] at hs
        rw [hs]
  have hlabel : s.label =
      pyOr ((cfgGet kc label_type).getD "") (kc.primary_label.getD "") := by
    rw [styleOfConfig, htypes] at hstyle
    cases hstyle
    rfl
  constructor
  · intro hempty
    rw [hlabel, hempty, pyOr_of_left_empty]
  · intro hne
    rw [hlabel]
    exact pyOr_ne_empty_of_right _ _ hne

def kcC3 : KeyConfig :=
  { button := 0
    primary_icon := some "on.png"
    primary_label := some "ON"
    secondary_icon := some "off.png"
    toggle := some true
    active_icon := some "on.png"
    active_label := some "ON" }

def pagesC3 : List Page := [{ page_number := 1, keys := [kcC3] }]

def styleC3 : KeyStyle :=
  { name := "Button0"
    icon := pathJoin "/assets" "off.png"
    font := pathJoin "/assets" "Roboto-Regular.ttf"
    label := "ON" }

theorem C3_witness :
    ((cfgGet kcC3 "secondary_label").getD "" = "" →
      styleC3.label = kcC3.primary_label.getD "") ∧
    (kcC3.primary_label.getD "" ≠ "" → styleC3.label ≠ "") :=
  C3_label_fallback ⟨15⟩ "/assets" pagesC3 1 0 kcC3 true
    "secondary_icon" "secondary_label" styleC3 (by decide) (by decide) (by decide)

theorem pyOr_self (a : String) : pyOr a a = a := by
  by_cases h : a = "" <;> simp [pyOr, h]

/-- Claim C1: for a toggle key whose active icon equals its primary icon
(as the bare filename or joined under the asset root), a press resolves
to the secondary icon/label, and — after the active slots are updated to
the resolved values exactly as `update_key_image` stores them — a second
press resolves back to the primary icon/label: a 2-cycle on the active
slot (under the claim's implicit assumption that the secondary icon is a
distinct non-empty filename). -/
theorem C1_toggle_press_two_cycle (deck : Deck) (assetsPath : String) (pages : List Page)
    (page_number key : Int) (kc : KeyConfig) (pi si ai al : String)
    (hfind : get_key_config pages page_number key = .ok (some kc))
    (htog : kc.toggle.getD false = true)
    (hpi : kc.primary_icon = some pi) (hpine : pi ≠ "")
    (hsi : kc.secondary_icon = some si) (hsine : si ≠ "")
    (hslne : kc.secondary_label.getD "" ≠ "")
    (hai : kc.active_icon = some ai)
    (haicase : ai = pi ∨ ai = pathJoin assetsPath pi)
    (hal : kc.active_label = some al)
    (hne1 : pathJoin assetsPath si ≠ pi)
    (hne2 : pathJoin assetsPath si ≠ pathJoin assetsPath pi) :
    get_key_style deck assetsPath pages page_number key true =
      .ok (some { name := "Button" ++ toString key,
                  icon := pathJoin assetsPath si,
                  font := pathJoin assetsPath "Roboto-Regular.ttf",
                  label := kc.secondary_label.getD "" }) ∧
    styleOfConfig deck assetsPath key
        { kc with active_icon := some (pathJoin assetsPath si),
                  active_label := some (kc.secondary_label.getD "") } true =
      .ok { name := "Button" ++ toString key,
            icon := pathJoin assetsPath pi,
            font := pathJoin assetsPath "Roboto-Regular.ttf",
            label := kc.primary_label.getD "" } := by
  have hrt : resolveTypes assetsPath kc true = .ok ("secondary_icon", "secondary_label") := by
    simp [resolveTypes, htog, hpi, hsi, hai, hal, haicase]
  have hrt2 : resolveTypes assetsPath
      { kc with active_icon := some (pathJoin assetsPath si),
                active_label := some (kc.secondary_label.getD "") } true =
      .ok ("primary_icon", "primary_label") := by
    simp [resolveTypes, htog, hpi, hsi, hne1, hne2]
  constructor
  · simp only [get_key_style, hfind, styleOfConfig, hrt]
    simp [cfgGet_secondary_icon, cfgGet_secondary_label, hsi,
      pyOr_of_left_ne _ _ hsine, hsine, pyOr_of_left_ne _ _ hslne]
  · simp only [styleOfConfig, hrt2]
    simp [cfgGet_primary_icon, cfgGet_primary_label, hpi,
      pyOr_of_left_ne _ _ hpine, hpine, pyOr_self]

def kcC1 : KeyConfig :=
  { button := 0
    primary_icon := some "on.png"
    primary_label := some "ON"
    secondary_icon := some "off.png"
    secondary_label := some "OFF"
    toggle := some true
    active_icon := some "on.png"
    active_label := some "ON" }

def pagesC1 : List Page := [{ page_number := 1, keys := [kcC1] }]

theorem C1_witness :
    get_key_style ⟨15⟩ "/assets" pagesC1 1 0 true =
      .ok (some { name := "Button0", icon := pathJoin "/assets" "off.png",
                  font := pathJoin "/assets" "Roboto-Regular.ttf",
                  label := kcC1.secondary_label.getD "" }) ∧
    styleOfConfig ⟨15⟩ "/assets" 0
        { kcC1 with active_icon := some (pathJoin "/assets" "off.png"),
                    active_label := some (kcC1.secondary_label.getD "") } true =
      .ok { name := "Button0", icon := pathJoin "/assets" "on.png",
            font := pathJoin "/assets" "Roboto-Regular.ttf",
            label := kcC1.primary_label.getD "" } :=
  C1_toggle_press_two_cycle ⟨15⟩ "/assets" pagesC1 1 0 kcC1 "on.png" "off.png" "on.png" "ON"
    (by decide) (by decide) (by decide) (by decide) (by decide) (by decide) (by decide)
    (by decide) (Or.inl (by decide)) (by decide) (by decide) (by decide)

def kcC4 : KeyConfig := { button := 0, display_page := some 2, action := some "echo hi" }

def pagesC4 : List Page := [{ page_number := 1, keys := [kcC4] }, { page_number := 2 }]

def stC4 : AppState := { pages := pagesC4, current_page := 1 }

/-- Claim C4 counterexample: for a key carrying both an action and a
page-navigation target, the dispatcher's first effect is the page
reload (the deck reset of `load_page`), and the shell action runs after
it — the action is not executed before the page switch as the claim
states. -/
theorem C4_counterexample :
    perform_key_actions ⟨15⟩ "/assets" stC4 1 0 true =
      .ok ({ pages := pagesC4, current_page := 2 },
           [Event.deck_reset, Event.run_action "echo hi"]) ∧
    List.head? [Event.deck_reset, Event.run_action "echo hi"] ≠
      some (Event.run_action "echo hi") :=
  ⟨rfl, by decide⟩

/-- Claim C4 (amended): for a key carrying both an action and a truthy
page-navigation target, the dispatcher switches the current page and
reloads its keys first, and executes the shell action after them: the
action event is appended after all navigation events. -/
theorem C4_navigation_precedes_action (deck : Deck) (assetsPath : String) (st : AppState)
    (page_number key dp : Int) (a : String) (kc : KeyConfig) (st2 : AppState) (evs : List Event)
    (hfind : get_key_config st.pages page_number key = .ok (some kc))
    (hdp : kc.display_page = some dp) (hdp0 : dp ≠ 0)
    (ha : kc.action = some a) (hane : a ≠ "")
    (hload : load_page deck assetsPath st dp = .ok (st2, evs)) :
    perform_key_actions deck assetsPath st page_number key true =
      .ok ({ st2 with current_page := dp }, evs ++ [Event.run_action a]) := by
  simp [perform_key_actions, hfind, hdp, hdp0, ha, hane, hload]

theorem C4_witness :
    perform_key_actions ⟨15⟩ "/assets" stC4 1 0 true =
      .ok ({ pages := pagesC4, current_page := 2 },
           [Event.deck_reset] ++ [Event.run_action "echo hi"]) :=
  C4_navigation_precedes_action ⟨15⟩ "/assets" stC4 1 0 2 "echo hi" kcC4
    { pages := pagesC4, current_page := 2 } [Event.deck_reset]
    rfl rfl (by decide) rfl (by decide) rfl

def kcC5 : KeyConfig :=
  { button := 5
    primary_icon := some "p.png"
    primary_label := some "P"
    active_icon := some "p.png"
    active_label := some "P" }

def stC5 : AppState := { pages := [{ page_number := 1, keys := [kcC5] }], current_page := 1 }

def kcC5b : KeyConfig :=
  { button := 5
    primary_icon := some "p.png"
    primary_label := some "P"
    active_icon := some "/assets/p.png"
    active_label := some "P" }

/-- Claim C5 counterexample: on a 6-key device the last physical key has
index 5; pressing it (with a fully configured key whose `button` is 5)
renders the key but emits neither a deck reset nor a deck close — the
last key is not the exit trigger, because the dispatcher compares the
configured `button` field against the literal 14, not against
`key_count - 1`. -/
theorem C5_counterexample :
    key_change_callback ⟨6⟩ "/assets" stC5 5 true =
      .ok ({ pages := [{ page_number := 1, keys := [kcC5b] }], current_page := 1 },
           [Event.set_key_image 5 "/assets/p.png" "/assets/Roboto-Regular.ttf" "P"]) ∧
    Event.deck_close ∉
      [Event.set_key_image 5 "/assets/p.png" "/assets/Roboto-Regular.ttf" "P"] :=
  ⟨rfl, by decide⟩

/-- Claim C5 (amended): the exit trigger is the configured `button`
field being the literal 14, looked up on the current page after the
press has been processed: exactly then does the dispatcher append a
deck reset (clearing all images) followed by a deck close to the press's
event trace. -/
theorem C5_exit_on_button_14 (deck : Deck) (assetsPath : String) (st : AppState) (key : Int)
    (st1 st2 : AppState) (evs1 evs2 : List Event) (oks : Option CurrentKeyStyle)
    (h1 : update_key_image deck assetsPath st st.current_page key true = .ok (st1, evs1))
    (h2 : perform_key_actions deck assetsPath st1 st1.current_page key true = .ok (st2, evs2))
    (h3 : get_current_key_style st2.pages st2.current_page key = .ok oks) :
    key_change_callback deck assetsPath st key true =
      .ok (st2, evs1 ++ evs2 ++
        (match oks with
         | some ks => if ks.button = 14 then [Event.deck_reset, Event.deck_close] else []
         | none => [])) := by
  simp [key_change_callback, h1, h2, h3]
  cases oks <;> rfl

def kcC5w : KeyConfig :=
  { button := 14
    primary_icon := some "e.png"
    primary_label := some "Exit"
    active_icon := some "e.png"
    active_label := some "Exit" }

def stC5w : AppState := { pages := [{ page_number := 1, keys := [kcC5w] }], current_page := 1 }

def kcC5w2 : KeyConfig :=
  { button := 14
    primary_icon := some "e.png"
    primary_label := some "Exit"
    active_icon := some "/assets/e.png"
    active_label := some "Exit" }

def stC5w2 : AppState := { pages := [{ page_number := 1, keys := [kcC5w2] }], current_page := 1 }

theorem C5_witness :
    key_change_callback ⟨15⟩ "/assets" stC5w 14 true =
      .ok (stC5w2,
        [Event.set_key_image 14 "/assets/e.png" "/assets/Roboto-Regular.ttf" "Exit"] ++ [] ++
          (match (some { button := 14, icon := "/assets/e.png", label := "Exit" } :
              Option CurrentKeyStyle) with
           | some ks => if ks.button = 14 then [Event.deck_reset, Event.deck_close] else []
           | none => [])) :=
  C5_exit_on_button_14 ⟨15⟩ "/assets" stC5w 14 stC5w2 stC5w2
    [Event.set_key_image 14 "/assets/e.png" "/assets/Roboto-Regular.ttf" "Exit"] []
    (some { button := 14, icon := "/assets/e.png", label := "Exit" })
    rfl rfl rfl

/-- Two key configs that agree on every field except possibly
`active_icon` and `active_label`. -/
def sameExceptActive (k k' : KeyConfig) : Prop :=
  k'.button = k.button ∧ k'.primary_icon = k.primary_icon ∧
  k'.primary_label = k.primary_label ∧ k'.secondary_icon = k.secondary_icon ∧
  k'.secondary_label = k.secondary_label ∧ k'.toggle = k.toggle ∧
  k'.action = k.action ∧ k'.display_page = k.display_page

theorem sameExceptActive_refl (k : KeyConfig) : sameExceptActive k k := by
  simp [sameExceptActive]

theorem sameExceptActive_set_active (k : KeyConfig) (v w : String) :
    sameExceptActive k (cfgSet (cfgSet k "active_icon" v) "active_label" w) := by
  simp [cfgSet, sameExceptActive]

theorem cfgSet_button (k : KeyConfig) (item v : String) : (cfgSet k item v).button = k.button := by
  unfold cfgSet
  split_ifs <;> rfl

/-- The frame relation of a key-image update targeted at
`(page_number, key)`: page identities are preserved, every key config is
unchanged outside its active slots, and any key config that is not the
target is unchanged entirely. -/
def configFramePages (page_number key : Int) (ps ps' : List Page) : Prop :=
  List.Forall₂ (fun p p' =>
    p'.page_number = p.page_number ∧ p'.home_page = p.home_page ∧
    List.Forall₂ (fun k k' =>
      sameExceptActive k k' ∧ ((p.page_number ≠ page_number ∨ k.button ≠ key) → k' = k))
      p.keys p'.keys) ps ps'

theorem configFramePages_refl (page_number key : Int) (ps : List Page) :
    configFramePages page_number key ps ps := by
  apply List.forall₂_same.mpr
  intro p _
  refine ⟨rfl, rfl, ?_⟩
  apply List.forall₂_same.mpr
  intro k _
  exact ⟨sameExceptActive_refl k, fun _ => rfl⟩

theorem updateFirstKey_frame (b : Int) (g : KeyConfig → KeyConfig)
    (hg : ∀ k, sameExceptActive k (g k)) (ks : List KeyConfig) :
    List.Forall₂ (fun k k' => sameExceptActive k k' ∧ (k.button ≠ b → k' = k))
      ks (updateFirstKey ks b g) := by
  induction ks with
  | nil => exact List.Forall₂.nil
  | cons k rest ih =>
      rw [updateFirstKey]
      by_cases hkb : k.button = b
      · rw [if_pos (by simp [hkb])]
        exact List.Forall₂.cons ⟨hg k, fun hne => absurd hkb hne⟩
          (List.forall₂_same.mpr (fun x _ => ⟨sameExceptActive_refl x, fun _ => rfl⟩))
      · rw [if_neg (by simp [hkb])]
        exact List.Forall₂.cons ⟨sameExceptActive_refl k, fun _ => rfl⟩ ih

theorem updateFirstPage_frame (page_number key : Int) (F : Page → Page)
    (hF : ∀ p, (F p).page_number = p.page_number ∧ (F p).home_page = p.home_page ∧
      List.Forall₂ (fun k k' => sameExceptActive k k' ∧ (k.button ≠ key → k' = k))
        p.keys (F p).keys)
    (ps : List Page) :
    configFramePages page_number key ps (updateFirstPage ps page_number F) := by
  induction ps with
  | nil => exact List.Forall₂.nil
  | cons p rest ih =>
      rw [updateFirstPage]
      by_cases hpn : p.page_number = page_number
      · rw [if_pos (by simp [hpn])]
        refine List.Forall₂.cons ⟨(hF p).1, (hF p).2.1, ?_⟩ (configFramePages_refl _ _ _)
        have h3 := (hF p).2.2
        apply List.Forall₂.imp _ h3
        intro k k' hk
        exact ⟨hk.1, fun hor => hk.2 (hor.resolve_left (fun hc => hc hpn))⟩
      · rw [if_neg (by simp [hpn])]
        refine List.Forall₂.cons ⟨rfl, rfl, ?_⟩ ih
        apply List.forall₂_same.mpr
        intro k _
        exact ⟨sameExceptActive_refl k, fun _ => rfl⟩

theorem find?_updateFirstPage (ps : List Page) (n : Int) (F : Page → Page)
    (hF : ∀ p, (F p).page_number = p.page_number) :
    (updateFirstPage ps n F).find? (fun p => p.page_number == n) =
      (ps.find? (fun p => p.page_number == n)).map F := by
  induction ps with
  | nil => rfl
  | cons p rest ih =>
      rw [updateFirstPage]
      by_cases hpn : p.page_number = n
      · rw [if_pos (by simp [hpn])]
        rw [List.find?_cons_of_pos _ (by simp [hF p, hpn])]
        rw [List.find?_cons_of_pos _ (by simp [hpn])]
        rfl
      · rw [if_neg (by simp [hpn])]
        rw [List.find?_cons_of_neg _ (by simpa using hpn)]
        rw [List.find?_cons_of_neg _ (by simpa using hpn)]
        exact ih

theorem updateFirstKey_comp (ks : List KeyConfig) (b : Int) (f g : KeyConfig → KeyConfig)
    (hf : ∀ k, (f k).button = k.button) :
    updateFirstKey (updateFirstKey ks b f) b g = updateFirstKey ks b (fun k => g (f k)) := by
  induction ks with
  | nil => rfl
  | cons k rest ih =>
      rw [updateFirstKey, updateFirstKey]
      by_cases hkb : k.button = b
      · rw [if_pos (by simp [hkb]), if_pos (by simp [hkb])]
        rw [updateFirstKey, if_pos (by simp [hf k, hkb])]
      · rw [if_neg (by simp [hkb]), if_neg (by simp [hkb])]
        rw [updateFirstKey, if_neg (by simp [hkb])]
        rw [ih]

theorem updateFirstPage_comp (ps : List Page) (n : Int) (F G : Page → Page)
    (hF : ∀ p, (F p).page_number = p.page_number) :
    updateFirstPage (updateFirstPage ps n F) n G = updateFirstPage ps n (fun p => G (F p)) := by
  induction ps with
  | nil => rfl
  | cons p rest ih =>
      rw [updateFirstPage, updateFirstPage]
      by_cases hpn : p.page_number = n
      · rw [if_pos (by simp [hpn]), if_pos (by simp [hpn])]
        rw [updateFirstPage, if_pos (by simp [hF p, hpn])]
      · rw [if_neg (by simp [hpn]), if_neg (by simp [hpn])]
        rw [updateFirstPage, if_neg (by simp [hpn])]
        rw [ih]

theorem updateFirstPage_getElem?_ne (ps : List Page) (n : Int) (F : Page → Page) (i : Nat)
    (p : Page) (hp : ps[i]? = some p) (hne : p.page_number ≠ n) :
    (updateFirstPage ps n F)[i]? = some p := by
  induction ps generalizing i with
  | nil => cases hp
  | cons q rest ih =>
      rw [updateFirstPage]
      by_cases hqn : q.page_number = n
      · rw [if_pos (by simp [hqn])]
        cases i with
        | zero =>
            simp only [List.getElem?_cons_zero, Option.some.injEq] at hp
            exact absurd (hp ▸ hqn) hne
        | succ j => simpa using hp
      · rw [if_neg (by simp [hqn])]
        cases i with
        | zero => simpa using hp
        | succ j =>
            simp only [List.getElem?_cons_succ] at hp ⊢
            exact ih j hp

/-- The two `set_key_config_value` calls of `update_key_image` only
rewrite the target key's active slots. -/
theorem setActivePair_frame (pages : List Page) (page_number key : Int) (v w : String)
    (pages1 pages2 : List Page)
    (h1 : set_key_config_value pages page_number key "active_icon" v = .ok pages1)
    (h2 : set_key_config_value pages1 page_number key "active_label" w = .ok pages2) :
    configFramePages page_number key pages pages2 := by
  unfold set_key_config_value at h1 h2
  cases hf1 : pages.find? (fun p => p.page_number == page_number) with
  | none => rw [hf1] at h1; cases h1
  | some pg =>
      rw [hf1] at h1
      cases hf2 : pages1.find? (fun p => p.page_number == page_number) with
      | none => rw [hf2] at h2; cases h2
      | some pg1 =>
          rw [hf2] at h2
          simp only [Except.ok.injEq] at h1 h2
          subst h1
          subst h2
          rw [updateFirstPage_comp pages page_number
            (fun pg => { pg with
              keys := updateFirstKey pg.keys key (fun kc => cfgSet kc "active_icon" v) })
            (fun pg => { pg with
              keys := updateFirstKey pg.keys key (fun kc => cfgSet kc "active_label" w) })
            (fun _ => rfl)]
          apply updateFirstPage_frame
          intro p
          refine ⟨rfl, rfl, ?_⟩
          show List.Forall₂ _ p.keys
            (updateFirstKey (updateFirstKey p.keys key (fun kc => cfgSet kc "active_icon" v))
              key (fun kc => cfgSet kc "active_label" w))
          rw [updateFirstKey_comp p.keys key
            (fun kc => cfgSet kc "active_icon" v)
            (fun kc => cfgSet kc "active_label" w)
            (fun k => cfgSet_button k _ _)]
          exact updateFirstKey_frame key _ (fun k => sameExceptActive_set_active k v w) p.keys

/-- Claim C10: `update_key_image` is atomic on skip and minimal on
success.  When the resolved style is empty, or its icon path is empty,
the update performs no device write and returns the state unchanged;
whenever it succeeds, the only configuration fields that may differ are
the targeted key config's `active_icon` / `active_label` — every other
field of that key, and every other key config on every page, is
unchanged, and the current page is unchanged. -/
theorem C10_update_key_image_frame (deck : Deck) (assetsPath : String) (st : AppState)
    (page_number key : Int) (state : Bool) :
    (get_key_style deck assetsPath st.pages page_number key state = .ok none →
      update_key_image deck assetsPath st page_number key state = .ok (st, [])) ∧
    (∀ s, get_key_style deck assetsPath st.pages page_number key state = .ok (some s) →
      s.icon = "" →
      update_key_image deck assetsPath st page_number key state = .ok (st, [])) ∧
    (∀ st' evs, update_key_image deck assetsPath st page_number key state = .ok (st', evs) →
      st'.current_page = st.current_page ∧
      configFramePages page_number key st.pages st'.pages) := by
  refine ⟨?_, ?_, ?_⟩
  · intro h
    simp [update_key_image, h]
  · intro s h hicon
    simp [update_key_image, h, hicon]
  · intro st' evs h
    unfold update_key_image at h
    cases hks : get_key_style deck assetsPath st.pages page_number key state with
    | error e => rw [hks] at h; cases h
    | ok oks =>
        rw [hks] at h
        cases oks with
        | none =>
            simp only [Except.ok.injEq, Prod.mk.injEq] at h
            rw [← h.1]
            exact ⟨rfl, configFramePages_refl _ _ _⟩
        | some s =>
            dsimp only at h
            by_cases hicon : s.icon = ""
            · rw [if_pos hicon] at h
              simp only [Except.ok.injEq, Prod.mk.injEq] at h
              rw [← h.1]
              exact ⟨rfl, configFramePages_refl _ _ _⟩
            · rw [if_neg hicon] at h
              cases hs1 : set_key_config_value st.pages page_number key "active_icon" s.icon with
              | error e => rw [hs1] at h; cases h
              | ok pages1 =>
                  rw [hs1] at h
                  dsimp only at h
                  cases hs2 : set_key_config_value pages1 page_number key "active_label" s.label with
                  | error e => rw [hs2] at h; cases h
                  | ok pages2 =>
                      rw [hs2] at h
                      simp only [Except.ok.injEq, Prod.mk.injEq] at h
                      rw [← h.1]
                      exact ⟨rfl, setActivePair_frame _ _ _ _ _ _ _ hs1 hs2⟩

def kcC10 : KeyConfig :=
  { button := 0
    primary_icon := some "p.png"
    primary_label := some "P"
    active_icon := some "a.png"
    active_label := some "A" }

def stC10 : AppState := { pages := [{ page_number := 1, keys := [kcC10] }], current_page := 1 }

def kcC10b : KeyConfig :=
  { button := 0
    primary_icon := some "p.png"
    primary_label := some "P"
    active_icon := some "/assets/a.png"
    active_label := some "A" }

def stC10b : AppState := { pages := [{ page_number := 1, keys := [kcC10b] }], current_page := 1 }

def stC10skip : AppState :=
  { pages := [{ page_number := 1, keys := [{ button := 0 }] }], current_page := 1 }

theorem C10_witness :
    update_key_image ⟨15⟩ "/assets" stC10skip 1 0 false = .ok (stC10skip, []) ∧
    (stC10b.current_page = stC10.current_page ∧ configFramePages 1 0 stC10.pages stC10b.pages) :=
  ⟨(C10_update_key_image_frame ⟨15⟩ "/assets" stC10skip 1 0 false).2.1
      { name := "Button0", icon := "", font := pathJoin "/assets" "Roboto-Regular.ttf",
        label := "" } rfl rfl,
   (C10_update_key_image_frame ⟨15⟩ "/assets" stC10 1 0 true).2.2 stC10b
      [Event.set_key_image 0 "/assets/a.png" "/assets/Roboto-Regular.ttf" "A"] rfl⟩

theorem string_append_ne_empty (a b : String) (hb : b ≠ "") : a ++ b ≠ "" := by
  intro hc
  apply hb
  rw [String.ext_iff] at hc ⊢
  rw [String.data_append] at hc
  exact (List.append_eq_nil.mp hc).2

theorem pathJoin_ne_empty (a b : String) (hb : b ≠ "") : pathJoin a b ≠ "" := by
  unfold pathJoin
  split_ifs
  · exact hb
  · exact hb
  · exact string_append_ne_empty a b hb
  · exact string_append_ne_empty (a ++ "/") b hb

theorem find?_some_of_forall2 {α : Type} {R : α → α → Prop} {q : α → Bool}
    (hq : ∀ a b, R a b → q b = q a) {l l' : List α} (h : List.Forall₂ R l l') :
    ∀ {a}, l.find? q = some a → ∃ b, l'.find? q = some b ∧ R a b := by
  induction h with
  | nil => intro a ha; cases ha
  | @cons x y xs ys hxy htail ih =>
      intro a ha
      by_cases hx : q x = true
      · rw [List.find?_cons_of_pos _ hx] at ha
        cases ha
        exact ⟨y, List.find?_cons_of_pos _ (by rw [hq _ _ hxy]; exact hx), hxy⟩
      · rw [List.find?_cons_of_neg _ hx] at ha
        obtain ⟨b, hb, hrb⟩ := ih ha
        exact ⟨b, by rw [List.find?_cons_of_neg _ (by rw [hq _ _ hxy]; exact hx)]; exact hb, hrb⟩

/-- A key-image update never loses a key config: after the frame update,
a config lookup on any page and button still succeeds, and the result
agrees with the original outside the active slots. -/
theorem get_key_config_frame_some (page_number key q b : Int) (ps ps' : List Page)
    (kc : KeyConfig) (h : configFramePages page_number key ps ps')
    (hget : get_key_config ps q b = .ok (some kc)) :
    ∃ kc', get_key_config ps' q b = .ok (some kc') ∧ sameExceptActive kc kc' := by
  unfold get_key_config at hget ⊢
  cases hf : ps.find? (fun p => p.page_number == q) with
  | none => rw [hf] at hget; cases hget
  | some pg =>
      rw [hf] at hget
      obtain ⟨pg', hpg', hrel⟩ :=
        find?_some_of_forall2 (fun p p' hpp => by simp [hpp.1]) h hf
      rw [hpg']
      dsimp only
      simp only [Except.ok.injEq] at hget
      cases hfk : pg.keys.find? (fun k => k.button == b) with
      | none => rw [hfk] at hget; cases hget
      | some kc0 =>
          rw [hfk] at hget
          injection hget with hkk
          subst hkk
          obtain ⟨kc', hkc', hrelk⟩ :=
            find?_some_of_forall2 (fun k k' hkk => by simp [hkk.1.1]) hrel.2.2 hfk
          rw [hkc']
          exact ⟨kc', rfl, hrelk.1⟩

/-- In the released state the style resolver always succeeds, and the
resulting icon is non-empty whenever the config's primary icon is
non-empty (the icon slot falls back to the primary icon). -/
theorem styleOfConfig_false_ok (deck : Deck) (assetsPath : String) (key : Int) (kc : KeyConfig) :
    ∃ s, styleOfConfig deck assetsPath key kc false = .ok s ∧
      (kc.primary_icon.getD "" ≠ "" → s.icon ≠ "") := by
  have H : ∀ it lt, resolveTypes assetsPath kc false = .ok (it, lt) →
      ∃ s, styleOfConfig deck assetsPath key kc false = .ok s ∧
        (kc.primary_icon.getD "" ≠ "" → s.icon ≠ "") := by
    intro it lt hrt
    refine ⟨{ name := "Button" ++ toString key,
              icon := if pyOr ((cfgGet kc it).getD "") (kc.primary_icon.getD "") = "" then ""
                else pathJoin assetsPath (pyOr ((cfgGet kc it).getD "") (kc.primary_icon.getD "")),
              font := pathJoin assetsPath "Roboto-Regular.ttf",
              label := pyOr ((cfgGet kc lt).getD "") (kc.primary_label.getD "") }, ?_, ?_⟩
    · simp only [styleOfConfig, hrt]
    · intro hpi
      have hne : pyOr ((cfgGet kc it).getD "") (kc.primary_icon.getD "") ≠ "" :=
        pyOr_ne_empty_of_right _ _ hpi
      simp only [if_neg hne]
      exact pathJoin_ne_empty _ _ hne
  cases htog : kc.toggle.getD false with
  | true => exact H "active_icon" "active_label" (by simp [resolveTypes, htog])
  | false => exact H "primary_icon" "primary_label" (by simp [resolveTypes, htog])

/-- A released-state key-image update on a configured key with a
non-empty primary icon pushes exactly one image, keeps the current page,
changes at most the target's active slots, and leaves every page with a
different number untouched. -/
theorem update_key_image_false_renders (deck : Deck) (assetsPath : String) (st : AppState)
    (page_number b : Int) (kc : KeyConfig)
    (hkc : get_key_config st.pages page_number b = .ok (some kc))
    (hpi : kc.primary_icon.getD "" ≠ "") :
    ∃ (st1 : AppState) (s : KeyStyle), update_key_image deck assetsPath st page_number b false =
        .ok (st1, [Event.set_key_image b s.icon s.font s.label]) ∧
      st1.current_page = st.current_page ∧
      configFramePages page_number b st.pages st1.pages ∧
      (∀ (i : Nat) (p : Page), st.pages[i]? = some p → p.page_number ≠ page_number →
        st1.pages[i]? = some p) := by
  obtain ⟨s, hs, hsne⟩ := styleOfConfig_false_ok deck assetsPath b kc
  have hicon : s.icon ≠ "" := hsne hpi
  have hstyle : get_key_style deck assetsPath st.pages page_number b false = .ok (some s) := by
    simp only [get_key_style, hkc, hs]
  obtain ⟨pg, hfpg⟩ : ∃ pg, st.pages.find? (fun p => p.page_number == page_number) = some pg := by
    unfold get_key_config at hkc
    cases hf : st.pages.find? (fun p => p.page_number == page_number) with
    | none => rw [hf] at hkc; cases hkc
    | some pg => exact ⟨pg, rfl⟩
  set F1 : Page → Page := fun pg =>
    { pg with keys := updateFirstKey pg.keys b (fun kc => cfgSet kc "active_icon" s.icon) }
    with hF1
  set F2 : Page → Page := fun pg =>
    { pg with keys := updateFirstKey pg.keys b (fun kc => cfgSet kc "active_label" s.label) }
    with hF2
  set pages1 : List Page := updateFirstPage st.pages page_number F1 with hpages1
  set pages2 : List Page := updateFirstPage pages1 page_number F2 with hpages2
  have hset1 : set_key_config_value st.pages page_number b "active_icon" s.icon = .ok pages1 := by
    unfold set_key_config_value
    rw [hfpg]
  have hfind1 : pages1.find? (fun p => p.page_number == page_number) = some (F1 pg) := by
    rw [hpages1, find?_updateFirstPage st.pages page_number F1 (fun p => rfl), hfpg]
    rfl
  have hset2 : set_key_config_value pages1 page_number b "active_label" s.label = .ok pages2 := by
    unfold set_key_config_value
    rw [hfind1]
  refine ⟨{ st with pages := pages2 }, s, ?_, rfl, ?_, ?_⟩
  · unfold update_key_image
    rw [hstyle]
    dsimp only
    rw [if_neg hicon, hset1]
    dsimp only
    rw [hset2]
  · exact setActivePair_frame _ _ _ _ _ _ _ hset1 hset2
  · intro i p hp hne
    show pages2[i]? = some p
    rw [hpages2]
    exact updateFirstPage_getElem?_ne _ _ _ _ _
      (updateFirstPage_getElem?_ne _ _ _ _ _ hp hne) hne

/-- The `load_page` loop over a page's key list: it renders one image
per listed key (given each key's config has a non-empty primary icon),
keeps all previously accumulated events, keeps the current page, and
leaves every page with a different number untouched. -/
theorem load_page_keys_spec (deck : Deck) (assetsPath : String) (page_number : Int)
    (ks : List KeyConfig) :
    ∀ (s : AppState) (acc : List Event),
      (∀ k ∈ ks, ∃ kc, get_key_config s.pages page_number k.button = .ok (some kc) ∧
        kc.primary_icon.getD "" ≠ "") →
      ∃ (s' : AppState) (evs : List Event),
        load_page_keys deck assetsPath page_number s acc ks = .ok (s', evs) ∧
        s'.current_page = s.current_page ∧
        (∀ e ∈ acc, e ∈ evs) ∧
        (∀ k ∈ ks, ∃ icon font label, Event.set_key_image k.button icon font label ∈ evs) ∧
        (∀ (i : Nat) (p : Page), s.pages[i]? = some p → p.page_number ≠ page_number →
          s'.pages[i]? = some p) := by
  induction ks with
  | nil =>
      intro s acc _
      exact ⟨s, acc, rfl, rfl, fun e he => he, fun k hk => absurd hk (List.not_mem_nil k),
        fun i p hp _ => hp⟩
  | cons k ks ih =>
      intro s acc hh
      obtain ⟨kc, hkc, hkcpi⟩ := hh k (List.mem_cons_self k ks)
      obtain ⟨s1, sty, hupd, hcp1, hframe1, hpos1⟩ :=
        update_key_image_false_renders deck assetsPath s page_number k.button kc hkc hkcpi
      have hh2 : ∀ k' ∈ ks, ∃ kc', get_key_config s1.pages page_number k'.button =
          .ok (some kc') ∧ kc'.primary_icon.getD "" ≠ "" := by
        intro k' hk'
        obtain ⟨kc0, hkc0, hkc0pi⟩ := hh k' (List.mem_cons_of_mem k hk')
        obtain ⟨kc1, hkc1, hrel⟩ := get_key_config_frame_some page_number k.button
          page_number k'.button s.pages s1.pages kc0 hframe1 hkc0
        exact ⟨kc1, hkc1, by rw [hrel.2.1]; exact hkc0pi⟩
      obtain ⟨s', evs, hloop, hcp, haccsub, hrenders, hpos⟩ :=
        ih s1 (acc ++ [Event.set_key_image k.button sty.icon sty.font sty.label]) hh2
      refine ⟨s', evs, ?_, ?_, ?_, ?_, ?_⟩
      · rw [load_page_keys, hupd]
        exact hloop
      · rw [hcp, hcp1]
      · intro e he
        exact haccsub e (List.mem_append_left _ he)
      · intro k' hk'
        rcases List.mem_cons.mp hk' with hk0 | hk1
        · subst hk0
          exact ⟨sty.icon, sty.font, sty.label,
            haccsub _ (List.mem_append_right _ (List.mem_singleton_self _))⟩
        · exact hrenders k' hk1
      · intro i p hp hne
        exact hpos i p (hpos1 i p hp hne) hne

/-- Claim C8: pressing a key that carries a page-navigation target and
no action switches the current page to the target, resets the deck and
re-renders every configured key of the target page (each key's config
resolving to a non-empty icon, per the data-model invariant), and leaves
every page other than the target — in particular the previously current
page — untouched, stored active slots included. -/
theorem C8_navigation_rerenders (deck : Deck) (assetsPath : String) (st : AppState)
    (key dp : Int) (kc : KeyConfig) (pg : Page)
    (hfind : get_key_config st.pages st.current_page key = .ok (some kc))
    (hdp : kc.display_page = some dp) (hdp0 : dp ≠ 0) (hact : kc.action = none)
    (hpg : st.pages.find? (fun p => p.page_number == dp) = some pg)
    (hicons : ∀ k ∈ pg.keys, ∃ kck, get_key_config st.pages dp k.button = .ok (some kck) ∧
      kck.primary_icon.getD "" ≠ "") :
    ∃ (st' : AppState) (evs : List Event),
      perform_key_actions deck assetsPath st st.current_page key true = .ok (st', evs) ∧
      st'.current_page = dp ∧
      Event.deck_reset ∈ evs ∧
      (∀ k ∈ pg.keys, ∃ icon font label, Event.set_key_image k.button icon font label ∈ evs) ∧
      (∀ (i : Nat) (p : Page), st.pages[i]? = some p → p.page_number ≠ dp →
        st'.pages[i]? = some p) := by
  have hpgnum : pg.page_number = dp := by
    have h := List.find?_some hpg
    simpa using h
  obtain ⟨s1, evs, hloop, hcp, haccsub, hrenders, hpos⟩ :=
    load_page_keys_spec deck assetsPath pg.page_number pg.keys st [Event.deck_reset]
      (by intro k hk
          rw [hpgnum]
          exact hicons k hk)
  have hload : load_page deck assetsPath st dp = .ok ({ s1 with current_page := pg.page_number }, evs) := by
    unfold load_page
    rw [hpg]
    dsimp only
    rw [hloop]
  have hperform : perform_key_actions deck assetsPath st st.current_page key true =
      .ok ({ s1 with current_page := dp }, evs) := by
    unfold perform_key_actions
    rw [if_pos rfl, hfind]
    dsimp only
    rw [hdp]
    dsimp only
    rw [if_pos hdp0, hload]
    dsimp only
    rw [hact]
  refine ⟨{ s1 with current_page := dp }, evs, hperform, rfl, ?_, hrenders, ?_⟩
  · exact haccsub Event.deck_reset (List.mem_singleton_self _)
  · intro i p hp hne
    show s1.pages[i]? = some p
    exact hpos i p hp (by rw [hpgnum]; exact hne)

def kcC8nav : KeyConfig := { button := 0, display_page := some 2 }

def kcC8t : KeyConfig :=
  { button := 3
    primary_icon := some "x.png"
    primary_label := some "X" }

def pgC8 : Page := { page_number := 2, keys := [kcC8t] }

def stC8 : AppState :=
  { pages := [{ page_number := 1, keys := [kcC8nav] }, pgC8], current_page := 1 }

theorem C8_witness :
    (perform_key_actions ⟨15⟩ "/assets" stC8 stC8.current_page 0 true).map
      (fun r => r.1.current_page) = .ok 2 := by
  obtain ⟨st', evs, heq, hcp, -, -, -⟩ :=
    C8_navigation_rerenders ⟨15⟩ "/assets" stC8 0 2 kcC8nav pgC8 rfl rfl (by decide) rfl rfl
      (by intro k hk
          simp only [pgC8, List.mem_singleton] at hk
          subst hk
          exact ⟨kcC8t, rfl, by decide⟩)
  rw [heq]
  simp [Except.map, hcp]
